import Mathlib

/-!
# A shallow embedding of the `http2` crate's frame and HPACK codec

This file translates the decoding layer of the `http2` crate into Lean:
the HPACK primitives (`src/header/primitive.rs`), the header table
(`src/header/table.rs`), the header representations and list codec
(`src/header/representation.rs`, `src/header/field.rs`,
`src/header/list.rs`), and the frame layer (`src/frame/*.rs`).

Conventions of the embedding:

* Octets and machine integers are `Nat`; wrap-around and truncation are
  written explicitly (`% 256`, `% 2 ^ 64`, checked additions against
  `2 ^ 128`), matching `u8` / `usize` / `u128` in the source.
* Rust functions that take `&mut Vec<u8>` become functions from a byte
  list to a result paired with the remaining byte list.
* A fallible Rust call is a `RustResult`: `ok`, a typed `err`, or
  `panicked` for an out-of-bounds index / arithmetic overflow abort
  (debug-profile semantics, the profile the crate's test suite runs
  under).
* The crate's `huffman` module is declared in `src/header/mod.rs` and
  used by `HpackString::decode`, but no `huffman.rs` source exists; the
  embedding is therefore parameterised by the Huffman decoder
  (`hdec` arguments below).
-/

/-- The error enum of `src/error.rs`.  `frame/mod.rs` additionally
constructs a `NotEnoughBytes` variant that `error.rs` does not declare
(the crate's modules disagree); it is included so the frame layer can be
expressed. -/
inductive Http2Error where
  | FrameError (msg : String)
  | HpackError (msg : String)
  | HuffmanDecodingError (msg : String)
  | HeaderError (msg : String)
  | IndexationError (msg : String)
  | NotEnoughBytes (msg : String)
deriving DecidableEq, Repr

/-- Outcome of a fallible Rust call: a value, a typed error, or an abort
(out-of-bounds slice / index, arithmetic overflow in a debug build). -/
inductive RustResult (α : Type) where
  | ok (a : α)
  | err (e : Http2Error)
  | panicked
deriving DecidableEq, Repr

/-- A header field (`HeaderField` in `src/header/field.rs`): a name and a
value.  `HeaderName` / `HeaderValue` there are plain wrappers around
`String` (no case conversion on construction), so both components are
embedded as `String`. -/
structure HeaderField where
  name : String
  value : String
deriving DecidableEq, Repr

/-- `HeaderField::size`: name length plus value length (UTF-8 octets,
`as_bytes().len()`) plus 32. -/
def HeaderField.size (hf : HeaderField) : Nat :=
  hf.name.utf8ByteSize + hf.value.utf8ByteSize + 32

/-- The running total computed by `DynamicTable::update_size`:
`size = 0; for entry in &entries { size += entry.size() }`. -/
def sizeSum (entries : List HeaderField) : Nat :=
  entries.foldl (fun acc e => acc + e.size) 0

theorem sizeSum_nil : sizeSum [] = 0 := rfl

theorem foldl_size_eq (l : List HeaderField) :
    ∀ acc : Nat, l.foldl (fun acc e => acc + e.size) acc = acc + sizeSum l := by
  induction l with
  | nil => intro acc; simp [sizeSum]
  | cons x xs ih =>
      intro acc
      have h0 : sizeSum (x :: xs) = x.size + sizeSum xs := by
        show (x :: xs).foldl (fun acc e => acc + e.size) 0 = x.size + sizeSum xs
        rw [List.foldl_cons, ih]; omega
      rw [List.foldl_cons, ih, h0]; omega

theorem sizeSum_cons (e : HeaderField) (l : List HeaderField) :
    sizeSum (e :: l) = e.size + sizeSum l := by
  show (e :: l).foldl (fun acc x => acc + x.size) 0 = e.size + sizeSum l
  rw [List.foldl_cons, foldl_size_eq]; omega

theorem sizeSum_append (l₁ l₂ : List HeaderField) :
    sizeSum (l₁ ++ l₂) = sizeSum l₁ + sizeSum l₂ := by
  induction l₁ with
  | nil => simp [sizeSum_nil]
  | cons x xs ih => simp only [List.cons_append, sizeSum_cons, ih]; omega

/-- The HPACK dynamic table (`DynamicTable` in `src/header/table.rs`):
entries newest first, a stored octet `size`, and a `max_size` bound. -/
structure DynamicTable where
  entries : List HeaderField
  size : Nat
  max_size : Nat
deriving DecidableEq, Repr

/-- `DynamicTable::new`. -/
def DynamicTable.new (m : Nat) : DynamicTable :=
  { entries := [], size := 0, max_size := m }

/-- `DynamicTable::update_size`: recompute the stored size as the sum of
the entry sizes. -/
def DynamicTable.update_size (t : DynamicTable) : DynamicTable :=
  { t with size := sizeSum t.entries }

/-- The eviction loop shared by `DynamicTable::add_entry` and
`DynamicTable::set_max_size`:
`while self.size > self.max_size { self.entries.pop(); self.update_size(); }`.
`Vec::pop` removes the last (oldest) entry and is a no-op on an empty
vector, hence `List.dropLast`. -/
def DynamicTable.evictWhileOversized (t : DynamicTable) : DynamicTable :=
  if t.max_size < t.size then
    DynamicTable.evictWhileOversized
      (DynamicTable.update_size { t with entries := t.entries.dropLast })
  else t
termination_by t.entries.length + (if t.max_size < t.size then 1 else 0)
decreasing_by
  rename_i h
  simp only [DynamicTable.update_size, if_pos h]
  rcases t.entries with _ | ⟨x, xs⟩
  · simp [sizeSum_nil]
  · have h1 : ((x :: xs).dropLast).length = xs.length := by simp
    have h2 : (x :: xs).length = xs.length + 1 := by simp
    split <;> omega

/-- `DynamicTable::add_entry`: insert at the front, recompute the size,
then evict oldest entries while over the bound. -/
def DynamicTable.add_entry (t : DynamicTable) (entry : HeaderField) : DynamicTable :=
  DynamicTable.evictWhileOversized
    (DynamicTable.update_size { t with entries := entry :: t.entries })

/-- `DynamicTable::set_max_size`: store the new bound, then evict oldest
entries while over it. -/
def DynamicTable.set_max_size (t : DynamicTable) (m : Nat) : DynamicTable :=
  DynamicTable.evictWhileOversized { t with max_size := m }

/-- `DynamicTable::get`: `Vec::get` on the entries, out-of-range indices
give an `IndexationError`. -/
def DynamicTable.get (t : DynamicTable) (index : Nat) : RustResult HeaderField :=
  match t.entries.get? index with
  | some hf => .ok hf
  | none => .err (.IndexationError ("Index " ++ toString index ++ " is out of bounds."))

/-- The 61 constants of `STATIC_HEADER_FIELDS_TABLE_CONSTANTS`. -/
def STATIC_HEADER_FIELDS_TABLE_CONSTANTS : List (String × String) :=
  [(":authority", ""), (":method", "GET"), (":method", "POST"), (":path", "/"),
   (":path", "/index.html"), (":scheme", "http"), (":scheme", "https"),
   (":status", "200"), (":status", "204"), (":status", "206"), (":status", "304"),
   (":status", "400"), (":status", "404"), (":status", "500"), ("accept-charset", ""),
   ("accept-encoding", "gzip, deflate"), ("accept-language", ""), ("accept-ranges", ""),
   ("accept", ""), ("access-control-allow-origin", ""), ("age", ""), ("allow", ""),
   ("authorization", ""), ("cache-control", ""), ("content-disposition", ""),
   ("content-encoding", ""), ("content-language", ""), ("content-length", ""),
   ("content-location", ""), ("content-range", ""), ("content-type", ""), ("cookie", ""),
   ("date", ""), ("etag", ""), ("expect", ""), ("expires", ""), ("from", ""),
   ("host", ""), ("if-match", ""), ("if-modified-since", ""), ("if-none-match", ""),
   ("if-range", ""), ("if-unmodified-since", ""), ("last-modified", ""), ("link", ""),
   ("location", ""), ("max-forwards", ""), ("proxy-authenticate", ""),
   ("proxy-authorization", ""), ("range", ""), ("referer", ""), ("refresh", ""),
   ("retry-after", ""), ("server", ""), ("set-cookie", ""),
   ("strict-transport-security", ""), ("transfer-encoding", ""), ("user-agent", ""),
   ("vary", ""), ("via", ""), ("www-authenticate", "")]

/-- The static table built from the constants
(`StaticTable::from(STATIC_HEADER_FIELDS_TABLE_CONSTANTS)`). -/
def staticTableFields : List HeaderField :=
  STATIC_HEADER_FIELDS_TABLE_CONSTANTS.map (fun p => { name := p.1, value := p.2 })

/-- `StaticTable::get`: `Vec::get` on the table, out-of-range indices give
an `IndexationError`. -/
def StaticTable.get (table : List HeaderField) (index : Nat) : RustResult HeaderField :=
  match table.get? index with
  | some hf => .ok hf
  | none => .err (.IndexationError ("Index " ++ toString index ++ " is out of bounds."))

/-- The unified header table (`HeaderTable` in `src/header/table.rs`):
the static table over the dynamic table. -/
structure HeaderTable where
  static_table : List HeaderField
  dynamic_table : DynamicTable
deriving DecidableEq, Repr

/-- `HeaderTable::new`. -/
def HeaderTable.new (dynamic_table_max_size : Nat) : HeaderTable :=
  { static_table := staticTableFields,
    dynamic_table := DynamicTable.new dynamic_table_max_size }

/-- `HeaderTable::get`: indices `1..=static len` address the static table
at `index - 1`, larger indices address the dynamic table at
`index - static len - 1`.  At `index = 0` the source computes `0usize - 1`,
which aborts in a debug build, hence `panicked`. -/
def HeaderTable.get (t : HeaderTable) (index : Nat) : RustResult HeaderField :=
  if index ≤ t.static_table.length then
    if index = 0 then .panicked
    else StaticTable.get t.static_table (index - 1)
  else DynamicTable.get t.dynamic_table (index - t.static_table.length - 1)

/-- `HeaderTable::add_entry`: delegate to the dynamic table. -/
def HeaderTable.add_entry (t : HeaderTable) (hf : HeaderField) : HeaderTable :=
  { t with dynamic_table := t.dynamic_table.add_entry hf }

/-- `HeaderTable::set_max_size`: delegate to the dynamic table. -/
def HeaderTable.set_max_size (t : HeaderTable) (m : Nat) : HeaderTable :=
  { t with dynamic_table := t.dynamic_table.set_max_size m }

/-! ## HPACK integer primitive (`HpackInteger` in `src/header/primitive.rs`)

The stored value is a `u128`; `encode` takes the value and the prefix
size `n`, `decode` takes `n` and the input octets and returns the value
together with the unconsumed octets. -/

/-- The continuation loop of `HpackInteger::encode`:
`while integer >= 128 { push(integer % 128 + 128); integer /= 128 }`
followed by pushing the final quotient. -/
def HpackInteger.encodeLoop (integer : Nat) : List Nat :=
  if 128 ≤ integer then (integer % 128 + 128) :: HpackInteger.encodeLoop (integer / 128)
  else [integer]
termination_by integer
decreasing_by exact Nat.div_lt_self (by omega) (by omega)

/-- `HpackInteger::encode`.  The guard rejects `n = 0` and `n > 8`.  The
small-value test is `(integer as u8) < max_prefix_value`, i.e. the value
is truncated to eight bits before the comparison, and the pushed octet is
likewise `integer as u8`. -/
def HpackInteger.encode (value : Nat) (n : Nat) : Except Http2Error (List Nat) :=
  if 8 < n ∨ n = 0 then .error (.HpackError "Invalid integer prefix size")
  else
    let maxPrefixValue := 2 ^ n - 1
    if value % 256 < maxPrefixValue then .ok [value % 256]
    else .ok (maxPrefixValue :: HpackInteger.encodeLoop (value - maxPrefixValue))

/-- The continuation loop of `HpackInteger::decode`.  Each iteration reads
`bytes[0]`, which aborts when the octets have run out.  The exponent is
`2u128.pow(multiplier)`; once `multiplier ≥ 128` the power (and for large
factors the product) overflows `u128`, which aborts in a debug build.
The addition itself is a `checked_add` returning a typed error. -/
def HpackInteger.decodeLoop (integer multiplier : Nat) :
    List Nat → RustResult (Nat × List Nat)
  | [] => .panicked
  | b :: rest =>
      if 128 ≤ multiplier then .panicked
      else
        let add := Nat.land b 127 * 2 ^ multiplier
        if 2 ^ 128 ≤ add then .panicked
        else if 2 ^ 128 ≤ integer + add then .err (.HpackError "Integer overflow")
        else if Nat.land b 128 ≠ 128 then .ok (integer + add, rest)
        else HpackInteger.decodeLoop (integer + add) (multiplier + 7) rest

/-- `HpackInteger::decode`.  The first octet is read as `bytes[0]` with no
emptiness check, so an empty input aborts.  A masked prefix below
`2 ^ n - 1` is the value; otherwise the continuation loop runs on the
remaining octets. -/
def HpackInteger.decode (n : Nat) (bytes : List Nat) : RustResult (Nat × List Nat) :=
  if 8 < n ∨ n = 0 then .err (.HpackError "Invalid integer prefix size")
  else
    match bytes with
    | [] => .panicked
    | b :: rest =>
        let maxPrefixValue := 2 ^ n - 1
        let masked := Nat.land b maxPrefixValue
        if masked < maxPrefixValue then .ok (masked, rest)
        else HpackInteger.decodeLoop maxPrefixValue 0 rest

/-! ## HPACK string primitive (`HpackString` in `src/header/primitive.rs`) -/

/-- U+FFFD, the replacement character used by `String::from_utf8_lossy`. -/
def replacementChar : Char := Char.ofNat 0xFFFD

/-- UTF-8 decoding with replacement of invalid sequences; models the
standard library's `String::from_utf8_lossy` used by
`HpackString::decode` (not part of the crate's own sources). -/
def utf8Lossy : List Nat → List Char
  | [] => []
  | b :: rest =>
      if b < 0x80 then Char.ofNat b :: utf8Lossy rest
      else if b < 0xC2 then replacementChar :: utf8Lossy rest
      else if b < 0xE0 then
        match hm2 : rest with
        | b2 :: rest2 =>
            if 0x80 ≤ b2 ∧ b2 < 0xC0 then
              Char.ofNat (b % 32 * 64 + b2 % 64) :: utf8Lossy rest2
            else replacementChar :: utf8Lossy rest
        | [] => [replacementChar]
      else if b < 0xF0 then
        match hm3 : rest with
        | b2 :: b3 :: rest3 =>
            if (0x80 ≤ b2 ∧ b2 < 0xC0 ∧ 0x80 ≤ b3 ∧ b3 < 0xC0) ∧
                0x800 ≤ b % 16 * 4096 + b2 % 64 * 64 + b3 % 64 ∧
                ¬(0xD800 ≤ b % 16 * 4096 + b2 % 64 * 64 + b3 % 64 ∧
                  b % 16 * 4096 + b2 % 64 * 64 + b3 % 64 < 0xE000) then
              Char.ofNat (b % 16 * 4096 + b2 % 64 * 64 + b3 % 64) :: utf8Lossy rest3
            else replacementChar :: utf8Lossy rest
        | _ => replacementChar :: utf8Lossy rest
      else if b < 0xF5 then
        match hm4 : rest with
        | b2 :: b3 :: b4 :: rest4 =>
            if (0x80 ≤ b2 ∧ b2 < 0xC0 ∧ 0x80 ≤ b3 ∧ b3 < 0xC0 ∧ 0x80 ≤ b4 ∧ b4 < 0xC0) ∧
                0x10000 ≤ b % 8 * 262144 + b2 % 64 * 4096 + b3 % 64 * 64 + b4 % 64 ∧
                b % 8 * 262144 + b2 % 64 * 4096 + b3 % 64 * 64 + b4 % 64 < 0x110000 then
              Char.ofNat (b % 8 * 262144 + b2 % 64 * 4096 + b3 % 64 * 64 + b4 % 64) ::
                utf8Lossy rest4
            else replacementChar :: utf8Lossy rest
        | _ => replacementChar :: utf8Lossy rest
      else replacementChar :: utf8Lossy rest
termination_by l => l.length
decreasing_by all_goals (subst_vars; simp only [List.length_cons]; omega)

/-- `String::from_utf8_lossy(octets).to_string()`. -/
def stringFromUtf8Lossy (octets : List Nat) : String :=
  String.mk (utf8Lossy octets)

/-- `HpackString::decode`.  Reads the `H` bit from the first octet,
decodes the length with a 7-bit prefix, rejects a declared length of `0`
and a length exceeding the remaining octets, then copies the raw octets
or hands them to the Huffman decoder `hdec` (`Tree::new().unwrap()` +
`Tree::decode` in the source; the `huffman` module has no source file).
The `u128` length is cast to `usize` with `as`, hence the `% 2 ^ 64`. -/
def HpackString.decode (hdec : List Nat → RustResult String) (bytes : List Nat) :
    RustResult (String × List Nat) :=
  match bytes with
  | [] => .err (.HpackError "Invalid string length")
  | b :: _ =>
      let huffmanEncoded : Bool := Nat.land b 128 == 128
      match HpackInteger.decode 7 bytes with
      | .err e => .err e
      | .panicked => .panicked
      | .ok (lengthValue, bytes1) =>
          let strLength := lengthValue % 2 ^ 64
          if strLength = 0 then .err (.HpackError "Invalid string length")
          else if bytes1.length < strLength then .err (.HpackError "Invalid string length")
          else
            let stringOctets := bytes1.take strLength
            let bytes2 := bytes1.drop strLength
            if huffmanEncoded then
              match hdec stringOctets with
              | .ok s => .ok (s, bytes2)
              | .err e => .err e
              | .panicked => .panicked
            else .ok (stringFromUtf8Lossy stringOctets, bytes2)

/-! ## Header field representations (`src/header/representation.rs`) -/

/-- The seven HPACK wire forms (`HeaderRepresentation`). -/
inductive HeaderRepresentation where
  | Indexed (index : Nat)
  | IncrementalIndexingIndexedName (index : Nat) (value : String)
  | IncrementalIndexingNewName (name value : String)
  | WithoutIndexingIndexedName (index : Nat) (value : String)
  | WithoutIndexingNewName (name value : String)
  | NeverIndexedIndexedName (index : Nat) (value : String)
  | NeverIndexedNewName (name value : String)
  | SizeUpdate (maxSize : Nat)
deriving DecidableEq, Repr

/-- `HeaderRepresentation::decode`: discriminate on the top bits of the
first octet (read as `bytes[0]` with no emptiness check, hence
`panicked` on empty input), then read the prefixed integer and/or the
strings of the selected form. -/
def HeaderRepresentation.decode (hdec : List Nat → RustResult String)
    (bytes : List Nat) : RustResult (HeaderRepresentation × List Nat) :=
  match bytes with
  | [] => .panicked
  | b :: rest =>
      if Nat.land b 0b10000000 = 0b10000000 then
        match HpackInteger.decode 7 bytes with
        | .ok (index, r1) => .ok (.Indexed index, r1)
        | .err e => .err e
        | .panicked => .panicked
      else if Nat.land b 0b11000000 = 0b01000000 then
        if Nat.land b 0b00111111 ≠ 0 then
          match HpackInteger.decode 6 bytes with
          | .ok (index, r1) =>
              match HpackString.decode hdec r1 with
              | .ok (value, r2) => .ok (.IncrementalIndexingIndexedName index value, r2)
              | .err e => .err e
              | .panicked => .panicked
          | .err e => .err e
          | .panicked => .panicked
        else
          match HpackString.decode hdec rest with
          | .ok (name, r1) =>
              match HpackString.decode hdec r1 with
              | .ok (value, r2) => .ok (.IncrementalIndexingNewName name value, r2)
              | .err e => .err e
              | .panicked => .panicked
          | .err e => .err e
          | .panicked => .panicked
      else if Nat.land b 0b11110000 = 0b00000000 then
        if Nat.land b 0b00001111 ≠ 0 then
          match HpackInteger.decode 4 bytes with
          | .ok (index, r1) =>
              match HpackString.decode hdec r1 with
              | .ok (value, r2) => .ok (.WithoutIndexingIndexedName index value, r2)
              | .err e => .err e
              | .panicked => .panicked
          | .err e => .err e
          | .panicked => .panicked
        else
          match HpackString.decode hdec rest with
          | .ok (name, r1) =>
              match HpackString.decode hdec r1 with
              | .ok (value, r2) => .ok (.WithoutIndexingNewName name value, r2)
              | .err e => .err e
              | .panicked => .panicked
          | .err e => .err e
          | .panicked => .panicked
      else if Nat.land b 0b11110000 = 0b00010000 then
        if Nat.land b 0b00001111 ≠ 0 then
          match HpackInteger.decode 4 bytes with
          | .ok (index, r1) =>
              match HpackString.decode hdec r1 with
              | .ok (value, r2) => .ok (.NeverIndexedIndexedName index value, r2)
              | .err e => .err e
              | .panicked => .panicked
          | .err e => .err e
          | .panicked => .panicked
        else
          match HpackString.decode hdec rest with
          | .ok (name, r1) =>
              match HpackString.decode hdec r1 with
              | .ok (value, r2) => .ok (.NeverIndexedNewName name value, r2)
              | .err e => .err e
              | .panicked => .panicked
          | .err e => .err e
          | .panicked => .panicked
      else if Nat.land b 0b11100000 = 0b00100000 then
        match HpackInteger.decode 5 bytes with
        | .ok (maxSize, r1) => .ok (.SizeUpdate maxSize, r1)
        | .err e => .err e
        | .panicked => .panicked
      else .err (.HpackError "Invalid header field representation")

/-! ## Building header fields from representations (`src/header/field.rs`) -/

/-- `HeaderField::from_representation`.  Indexes are `u128` values cast
with `try_into::<usize>()`, which fails above `2 ^ 64 - 1`.  Incremental
indexing inserts the built field into the table; a size update calls
`set_max_size`; both results are threaded so partial table mutations are
kept on every outcome. -/
def HeaderField.from_representation (rep : HeaderRepresentation) (t : HeaderTable) :
    RustResult (Option HeaderField) × HeaderTable :=
  match rep with
  | .Indexed index =>
      if 2 ^ 64 ≤ index then (.err (.HpackError "HPACK Integer overflow"), t)
      else
        match t.get index with
        | .ok hf => (.ok (some hf), t)
        | .err e => (.err e, t)
        | .panicked => (.panicked, t)
  | .IncrementalIndexingIndexedName index value =>
      if 2 ^ 64 ≤ index then (.err (.HpackError "HPACK Integer overflow"), t)
      else
        match t.get index with
        | .ok hf =>
            let headerField : HeaderField := { name := hf.name, value := value }
            (.ok (some headerField), t.add_entry headerField)
        | .err e => (.err e, t)
        | .panicked => (.panicked, t)
  | .IncrementalIndexingNewName name value =>
      let headerField : HeaderField := { name := name, value := value }
      (.ok (some headerField), t.add_entry headerField)
  | .WithoutIndexingIndexedName index value =>
      if 2 ^ 64 ≤ index then (.err (.HpackError "HPACK Integer overflow"), t)
      else
        match t.get index with
        | .ok hf => (.ok (some { name := hf.name, value := value }), t)
        | .err e => (.err e, t)
        | .panicked => (.panicked, t)
  | .WithoutIndexingNewName name value => (.ok (some { name := name, value := value }), t)
  | .NeverIndexedIndexedName index value =>
      if 2 ^ 64 ≤ index then (.err (.HpackError "HPACK Integer overflow"), t)
      else
        match t.get index with
        | .ok hf => (.ok (some { name := hf.name, value := value }), t)
        | .err e => (.err e, t)
        | .panicked => (.panicked, t)
  | .NeverIndexedNewName name value => (.ok (some { name := name, value := value }), t)
  | .SizeUpdate maxSize =>
      if 2 ^ 64 ≤ maxSize then (.err (.HpackError "HPACK Integer overflow"), t)
      else (.ok none, t.set_max_size maxSize)

/-! ## Consumption lemmas

Each successful primitive decode consumes at least one octet; these facts
justify the termination of the header-list loop below (the loop in
`HeaderList::decode` runs while the buffer is non-empty). -/

theorem hpack_integer_decodeLoop_consumes :
    ∀ (bytes : List Nat) (i m v : Nat) (rest : List Nat),
      HpackInteger.decodeLoop i m bytes = .ok (v, rest) → rest.length < bytes.length := by
  intro bytes
  induction bytes with
  | nil => intro i m v rest h; simp [HpackInteger.decodeLoop] at h
  | cons b t ih =>
      intro i m v rest h
      simp only [HpackInteger.decodeLoop] at h
      split at h
      · exact absurd h (by simp)
      · split at h
        · exact absurd h (by simp)
        · split at h
          · exact absurd h (by simp)
          · split at h
            · rw [RustResult.ok.injEq, Prod.mk.injEq] at h
              rw [← h.2]
              simp
            · have := ih _ _ _ _ h
              simp only [List.length_cons]
              omega

theorem hpack_integer_decode_consumes (n : Nat) (bytes : List Nat) (v : Nat)
    (rest : List Nat) (h : HpackInteger.decode n bytes = .ok (v, rest)) :
    rest.length < bytes.length := by
  simp only [HpackInteger.decode] at h
  split at h
  · exact absurd h (by simp)
  · match bytes with
    | [] => exact absurd h (by simp)
    | b :: t =>
        simp only at h
        split at h
        · rw [RustResult.ok.injEq, Prod.mk.injEq] at h
          rw [← h.2]
          simp
        · have := hpack_integer_decodeLoop_consumes t _ _ _ _ h
          simp only [List.length_cons]
          omega

theorem hpack_string_decode_consumes (hdec : List Nat → RustResult String)
    (bytes : List Nat) (s : String) (rest : List Nat)
    (h : HpackString.decode hdec bytes = .ok (s, rest)) :
    rest.length < bytes.length := by
  simp only [HpackString.decode] at h
  match bytes with
  | [] => exact absurd h (by simp)
  | b :: t =>
      simp only at h
      rcases hI : HpackInteger.decode 7 (b :: t) with ⟨lv, bytes1⟩ | e | _ <;>
        rw [hI] at h
      · have h1 : bytes1.length < (b :: t).length :=
          hpack_integer_decode_consumes 7 (b :: t) lv bytes1 hI
        simp only at h
        split at h
        · exact absurd h (by simp)
        · split at h
          · exact absurd h (by simp)
          · split at h
            · split at h
              · rw [RustResult.ok.injEq, Prod.mk.injEq] at h
                rw [← h.2]
                have := List.length_drop (lv % 2 ^ 64) bytes1
                omega
              · exact absurd h (by simp)
              · exact absurd h (by simp)
            · rw [RustResult.ok.injEq, Prod.mk.injEq] at h
              rw [← h.2]
              have := List.length_drop (lv % 2 ^ 64) bytes1
              omega
      · exact absurd h (by simp)
      · exact absurd h (by simp)

theorem header_representation_decode_consumes (hdec : List Nat → RustResult String)
    (bytes : List Nat) (rep : HeaderRepresentation) (rest : List Nat)
    (h : HeaderRepresentation.decode hdec bytes = .ok (rep, rest)) :
    rest.length < bytes.length := by
  match bytes with
  | [] => exact absurd h (by simp [HeaderRepresentation.decode])
  | b :: t =>
      simp only [HeaderRepresentation.decode] at h
      split at h
      · rcases hI : HpackInteger.decode 7 (b :: t) with ⟨v, r1⟩ | e | _ <;> rw [hI] at h
        · simp only [RustResult.ok.injEq, Prod.mk.injEq] at h
          rw [← h.2]
          exact hpack_integer_decode_consumes 7 (b :: t) v r1 hI
        · simp at h
        · simp at h
      · split at h
        · split at h
          · rcases hI : HpackInteger.decode 6 (b :: t) with ⟨v, r1⟩ | e | _ <;> rw [hI] at h
            · simp only at h
              rcases hS : HpackString.decode hdec r1 with ⟨s, r2⟩ | e | _ <;> rw [hS] at h
              · simp only [RustResult.ok.injEq, Prod.mk.injEq] at h
                rw [← h.2]
                have h1 := hpack_integer_decode_consumes 6 (b :: t) v r1 hI
                have h2 := hpack_string_decode_consumes hdec r1 s r2 hS
                omega
              · simp at h
              · simp at h
            · simp at h
            · simp at h
          · rcases hS : HpackString.decode hdec t with ⟨s1, r1⟩ | e | _ <;> rw [hS] at h
            · simp only at h
              rcases hS2 : HpackString.decode hdec r1 with ⟨s2, r2⟩ | e | _ <;> rw [hS2] at h
              · simp only [RustResult.ok.injEq, Prod.mk.injEq] at h
                rw [← h.2]
                have h1 := hpack_string_decode_consumes hdec t s1 r1 hS
                have h2 := hpack_string_decode_consumes hdec r1 s2 r2 hS2
                simp only [List.length_cons]
                omega
              · simp at h
              · simp at h
            · simp at h
            · simp at h
        · split at h
          · split at h
            · rcases hI : HpackInteger.decode 4 (b :: t) with ⟨v, r1⟩ | e | _ <;> rw [hI] at h
              · simp only at h
                rcases hS : HpackString.decode hdec r1 with ⟨s, r2⟩ | e | _ <;> rw [hS] at h
                · simp only [RustResult.ok.injEq, Prod.mk.injEq] at h
                  rw [← h.2]
                  have h1 := hpack_integer_decode_consumes 4 (b :: t) v r1 hI
                  have h2 := hpack_string_decode_consumes hdec r1 s r2 hS
                  omega
                · simp at h
                · simp at h
              · simp at h
              · simp at h
            · rcases hS : HpackString.decode hdec t with ⟨s1, r1⟩ | e | _ <;> rw [hS] at h
              · simp only at h
                rcases hS2 : HpackString.decode hdec r1 with ⟨s2, r2⟩ | e | _ <;> rw [hS2] at h
                · simp only [RustResult.ok.injEq, Prod.mk.injEq] at h
                  rw [← h.2]
                  have h1 := hpack_string_decode_consumes hdec t s1 r1 hS
                  have h2 := hpack_string_decode_consumes hdec r1 s2 r2 hS2
                  simp only [List.length_cons]
                  omega
                · simp at h
                · simp at h
              · simp at h
              · simp at h
          · split at h
            · split at h
              · rcases hI : HpackInteger.decode 4 (b :: t) with ⟨v, r1⟩ | e | _ <;> rw [hI] at h
                · simp only at h
                  rcases hS : HpackString.decode hdec r1 with ⟨s, r2⟩ | e | _ <;> rw [hS] at h
                  · simp only [RustResult.ok.injEq, Prod.mk.injEq] at h
                    rw [← h.2]
                    have h1 := hpack_integer_decode_consumes 4 (b :: t) v r1 hI
                    have h2 := hpack_string_decode_consumes hdec r1 s r2 hS
                    omega
                  · simp at h
                  · simp at h
                · simp at h
                · simp at h
              · rcases hS : HpackString.decode hdec t with ⟨s1, r1⟩ | e | _ <;> rw [hS] at h
                · simp only at h
                  rcases hS2 : HpackString.decode hdec r1 with ⟨s2, r2⟩ | e | _ <;> rw [hS2] at h
                  · simp only [RustResult.ok.injEq, Prod.mk.injEq] at h
                    rw [← h.2]
                    have h1 := hpack_string_decode_consumes hdec t s1 r1 hS
                    have h2 := hpack_string_decode_consumes hdec r1 s2 r2 hS2
                    simp only [List.length_cons]
                    omega
                  · simp at h
                  · simp at h
                · simp at h
                · simp at h
            · split at h
              · rcases hI : HpackInteger.decode 5 (b :: t) with ⟨v, r1⟩ | e | _ <;> rw [hI] at h
                · simp only [RustResult.ok.injEq, Prod.mk.injEq] at h
                  rw [← h.2]
                  exact hpack_integer_decode_consumes 5 (b :: t) v r1 hI
                · simp at h
                · simp at h
              · exact absurd h (by simp)

/-! ## The header-list codec (`src/header/list.rs`) -/

/-- `HeaderList::decode`: while the buffer is non-empty, decode a
representation and build a header field from it (size updates yield no
field).  The table is threaded through every outcome. -/
def HeaderList.decode (hdec : List Nat → RustResult String) (bytes : List Nat)
    (t : HeaderTable) : RustResult (List HeaderField) × HeaderTable :=
  match bytes with
  | [] => (.ok [], t)
  | b :: bs =>
      match _hR : HeaderRepresentation.decode hdec (b :: bs) with
      | .err e => (.err e, t)
      | .panicked => (.panicked, t)
      | .ok (rep, rest) =>
          match HeaderField.from_representation rep t with
          | (.ok (some hf), t') =>
              match HeaderList.decode hdec rest t' with
              | (.ok hfs, t'') => (.ok (hf :: hfs), t'')
              | (.err e, t'') => (.err e, t'')
              | (.panicked, t'') => (.panicked, t'')
          | (.ok none, t') => HeaderList.decode hdec rest t'
          | (.err e, t') => (.err e, t')
          | (.panicked, t') => (.panicked, t')
termination_by bytes.length
decreasing_by
  all_goals exact header_representation_decode_consumes hdec _ rep rest _hR

/-! ## The frame layer (`src/frame/mod.rs` and the payload modules)

`frame/mod.rs` names the payload types `HeadersFrame` / `SettingsFrame`;
the payload modules define them as `Headers` / `Settings` (the crate's
modules disagree on names, not on content); the module definitions are
used.  `stream_id()` on a frame header resolves to the
`stream_identifier` field. -/

/-- `u32::from_be_bytes`. -/
def u32be (a b c d : Nat) : Nat := ((a * 256 + b) * 256 + c) * 256 + d

/-- `u16::from_be_bytes`. -/
def u16be (a b : Nat) : Nat := a * 256 + b

/-- The frame-header record (`FrameHeader` in `src/frame/mod.rs`). -/
structure FrameHeader where
  payload_length : Nat
  frame_type : Nat
  frame_flags : Nat
  reserved : Bool
  stream_identifier : Nat
deriving DecidableEq, Repr

/-- `FrameHeader::deserialize`: with at least nine octets, read the
24-bit length, type, flags, reserved bit and 31-bit stream identifier
and drop the nine octets; otherwise a `NotEnoughBytes` error. -/
def FrameHeader.deserialize : List Nat → RustResult (FrameHeader × List Nat)
  | b0 :: b1 :: b2 :: b3 :: b4 :: b5 :: b6 :: b7 :: b8 :: rest =>
      .ok ({ payload_length := u32be 0 b0 b1 b2,
             frame_type := b3,
             frame_flags := b4,
             reserved := decide (b5 / 128 % 2 ≠ 0),
             stream_identifier := u32be (Nat.land b5 0x7F) b6 b7 b8 }, rest)
  | bytes =>
      .err (.NotEnoughBytes
        ("Frame header needs at least 9 bytes, found " ++ toString bytes.length))

/-- The 24-bit length field carried by the first three octets of a
buffer (the `payload_length` a successful `FrameHeader::deserialize`
reads from it). -/
def payloadLen24 : List Nat → Nat
  | b0 :: b1 :: b2 :: _ => u32be 0 b0 b1 b2
  | _ => 0

/-- The flag constants shared by the payload modules (`FrameFlag`). -/
inductive FrameFlag where
  | EndStream
  | Padded
  | EndHeaders
  | Priority
  | Ack
deriving DecidableEq, Repr

/-- The priority sub-structure (`FramePriority` in `src/frame/mod.rs`). -/
structure FramePriority where
  exclusive : Bool
  stream_dependency : Nat
  weight : Nat
deriving DecidableEq, Repr

/-- `FramePriority::deserialize`: five octets (E bit, 31-bit dependency,
weight), error when fewer remain. -/
def FramePriority.deserialize : List Nat → RustResult (FramePriority × List Nat)
  | b0 :: b1 :: b2 :: b3 :: b4 :: rest =>
      .ok ({ exclusive := decide (b0 / 128 % 2 ≠ 0),
             stream_dependency := u32be (Nat.land b0 0x7F) b1 b2 b3,
             weight := b4 }, rest)
  | bytes =>
      .err (.NotEnoughBytes
        ("Frame priority needs at least 5 bytes, found " ++ toString bytes.length))

/-- The DATA payload (`DataFrame` in `src/frame/data.rs`). -/
structure DataFrame where
  stream_id : Nat
  end_stream : Bool
  data : List Nat
deriving DecidableEq, Repr

/-- `DataFrame::deserialize_flags`: END_STREAM is bit 0x1, PADDED is
bit 0x8. -/
def DataFrame.deserialize_flags (byte : Nat) : List FrameFlag :=
  (if Nat.land byte 0x01 ≠ 0 then [FrameFlag.EndStream] else []) ++
  (if Nat.land byte 0x08 ≠ 0 then [FrameFlag.Padded] else [])

/-- `DataFrame::deserialize`: check the payload length, read the optional
pad length (rejecting zero), and strip `pad_length` trailing octets via
the slice `bytes[1..payload_length - pad_length]` (whose bound
computations abort on underflow or an out-of-range slice). -/
def DataFrame.deserialize (frame_header : FrameHeader) (bytes : List Nat) :
    RustResult DataFrame :=
  if bytes.length ≠ frame_header.payload_length then
    .err (.FrameError ("Expected " ++ toString frame_header.payload_length ++
      " bytes for DATA frame, found " ++ toString bytes.length))
  else
    let frame_flags := DataFrame.deserialize_flags frame_header.frame_flags
    if frame_flags.contains FrameFlag.Padded then
      match bytes with
      | [] => .panicked
      | b0 :: _ =>
          let pad_length := b0
          if pad_length = 0 then .err (.FrameError "Padding length invalid: found 0")
          else if frame_header.payload_length < pad_length then .panicked
          else
            let hi := frame_header.payload_length - pad_length
            if hi < 1 ∨ bytes.length < hi then .panicked
            else
              .ok { stream_id := frame_header.stream_identifier,
                    end_stream := frame_flags.contains FrameFlag.EndStream,
                    data := (bytes.take hi).drop 1 }
    else
      .ok { stream_id := frame_header.stream_identifier,
            end_stream := frame_flags.contains FrameFlag.EndStream,
            data := bytes }

/-- The HEADERS flags (`HeadersFlag` in `src/frame/headers.rs`). -/
inductive HeadersFlag where
  | EndStream
  | EndHeaders
  | Padded
  | Priority
deriving DecidableEq, Repr

/-- `HeadersFlag::parse_flags`. -/
def HeadersFlag.parse_flags (byte : Nat) : List HeadersFlag :=
  (if Nat.land byte 0x1 ≠ 0 then [HeadersFlag.EndStream] else []) ++
  (if Nat.land byte 0x4 ≠ 0 then [HeadersFlag.EndHeaders] else []) ++
  (if Nat.land byte 0x8 ≠ 0 then [HeadersFlag.Padded] else []) ++
  (if Nat.land byte 0x20 ≠ 0 then [HeadersFlag.Priority] else [])

/-- The HEADERS payload (`Headers` in `src/frame/headers.rs`). -/
structure Headers where
  header : FrameHeader
  header_list : List HeaderField
  parsed_flags : List HeadersFlag
  exclusivity : Option Bool
  stream_dependency : Option Nat
  weight : Option Nat
deriving DecidableEq, Repr

/-- `Headers::deserialize`: strip padding (reading `payload[0]` with no
emptiness check and slicing `payload[1..payload.len() - pad_length]`),
read the optional priority fields, then decode the header block against
the table. -/
def Headers.deserialize (hdec : List Nat → RustResult String)
    (header : FrameHeader) (payload : List Nat) (header_table : HeaderTable) :
    RustResult Headers × HeaderTable :=
  let parsed_flags := HeadersFlag.parse_flags header.frame_flags
  let afterPad : RustResult (List Nat) :=
    if parsed_flags.contains HeadersFlag.Padded then
      match payload with
      | [] => .panicked
      | b0 :: _ =>
          let pad_length := b0
          if pad_length = 0 then .err (.FrameError "Padding length is 0")
          else if payload.length < pad_length then .panicked
          else
            let hi := payload.length - pad_length
            if hi < 1 ∨ payload.length < hi then .panicked
            else .ok ((payload.take hi).drop 1)
    else .ok payload
  match afterPad with
  | .err e => (.err e, header_table)
  | .panicked => (.panicked, header_table)
  | .ok payload1 =>
      if parsed_flags.contains HeadersFlag.Priority then
        if payload1.length < 5 then
          (.err (.FrameError "Not enough space for priority fields"), header_table)
        else
          match payload1 with
          | b0 :: b1 :: b2 :: b3 :: b4 :: rest =>
              let exclusivity := some (decide (Nat.land b0 0b10000000 ≠ 0))
              let stream_dependency := some (u32be (Nat.land b0 0b01111111) b1 b2 b3)
              let weight := some b4
              match HeaderList.decode hdec rest header_table with
              | (.ok hfs, t') =>
                  (.ok { header := header, header_list := hfs,
                         parsed_flags := parsed_flags, exclusivity := exclusivity,
                         stream_dependency := stream_dependency, weight := weight }, t')
              | (.err e, t') => (.err e, t')
              | (.panicked, t') => (.panicked, t')
          | _ => (.panicked, header_table)
      else
        match HeaderList.decode hdec payload1 header_table with
        | (.ok hfs, t') =>
            (.ok { header := header, header_list := hfs,
                   parsed_flags := parsed_flags, exclusivity := none,
                   stream_dependency := none, weight := none }, t')
        | (.err e, t') => (.err e, t')
        | (.panicked, t') => (.panicked, t')

/-- The PRIORITY payload (`PriorityFrame` in `src/frame/priority.rs`). -/
structure PriorityFrame where
  stream_id : Nat
  frame_priority : FramePriority
deriving DecidableEq, Repr

/-- `PriorityFrame::deserialize`. -/
def PriorityFrame.deserialize (frame_header : FrameHeader) (bytes : List Nat) :
    RustResult PriorityFrame :=
  if bytes.length ≠ frame_header.payload_length then
    .err (.FrameError ("Expected " ++ toString frame_header.payload_length ++
      " bytes for PRIORITY frame, found " ++ toString bytes.length))
  else
    match FramePriority.deserialize bytes with
    | .ok (fp, _) => .ok { stream_id := frame_header.stream_identifier, frame_priority := fp }
    | .err e => .err e
    | .panicked => .panicked

/-- The RST_STREAM payload (`RstStreamFrame` in `src/frame/rst_stream.rs`). -/
structure RstStreamFrame where
  stream_id : Nat
  error_code : Nat
deriving DecidableEq, Repr

/-- `RstStreamFrame::deserialize`: check the payload length and read the
32-bit error code (`bytes[0..=3]`, aborting when fewer octets remain). -/
def RstStreamFrame.deserialize (frame_header : FrameHeader) (bytes : List Nat) :
    RustResult RstStreamFrame :=
  if bytes.length ≠ frame_header.payload_length then
    .err (.FrameError ("Expected " ++ toString frame_header.payload_length ++
      " bytes for RST_STREAM frame, found " ++ toString bytes.length))
  else
    match bytes with
    | b0 :: b1 :: b2 :: b3 :: _ =>
        .ok { stream_id := frame_header.stream_identifier,
              error_code := u32be b0 b1 b2 b3 }
    | _ => .panicked

/-- The SETTINGS flag (`SettingsFlag` in `src/frame/settings.rs`). -/
inductive SettingsFlag where
  | Ack
deriving DecidableEq, Repr

/-- `SettingsFlag::parse_flags`. -/
def SettingsFlag.parse_flags (byte : Nat) : List SettingsFlag :=
  if Nat.land byte 0x1 ≠ 0 then [SettingsFlag.Ack] else []

/-- A SETTINGS parameter (`SettingsParameter` in `src/frame/settings.rs`). -/
inductive SettingsParameter where
  | HeaderTableSize (v : Nat)
  | EnablePush (v : Nat)
  | MaxConcurrentStreams (v : Nat)
  | InitialWindowSize (v : Nat)
  | MaxFrameSize (v : Nat)
  | MaxHeaderListSize (v : Nat)
deriving DecidableEq, Repr

/-- The parameter loop of `SettingsParameter::deserialize`: read a 16-bit
identifier and 32-bit value per six octets; identifiers outside `0x1..0x6`
are rejected with a `FrameError`.  (A residue of fewer than six octets
would abort on `bytes[1]`..`bytes[5]`; the caller's length guard rules it
out.) -/
def SettingsParameter.deserializeLoop : List Nat → RustResult (List SettingsParameter)
  | [] => .ok []
  | b0 :: b1 :: b2 :: b3 :: b4 :: b5 :: rest =>
      let value := u32be b2 b3 b4 b5
      match u16be b0 b1 with
      | 0x1 =>
          match SettingsParameter.deserializeLoop rest with
          | .ok ps => .ok (.HeaderTableSize value :: ps)
          | other => other
      | 0x2 =>
          match SettingsParameter.deserializeLoop rest with
          | .ok ps => .ok (.EnablePush value :: ps)
          | other => other
      | 0x3 =>
          match SettingsParameter.deserializeLoop rest with
          | .ok ps => .ok (.MaxConcurrentStreams value :: ps)
          | other => other
      | 0x4 =>
          match SettingsParameter.deserializeLoop rest with
          | .ok ps => .ok (.InitialWindowSize value :: ps)
          | other => other
      | 0x5 =>
          match SettingsParameter.deserializeLoop rest with
          | .ok ps => .ok (.MaxFrameSize value :: ps)
          | other => other
      | 0x6 =>
          match SettingsParameter.deserializeLoop rest with
          | .ok ps => .ok (.MaxHeaderListSize value :: ps)
          | other => other
      | _ => .err (.FrameError ("Invalid SETTINGS parameter: " ++ toString (u16be b0 b1)))
  | _ => .panicked

/-- `SettingsParameter::deserialize`: the payload length must be a
multiple of six, then the parameter loop runs. -/
def SettingsParameter.deserialize (bytes : List Nat) :
    RustResult (List SettingsParameter) :=
  if bytes.length % 6 ≠ 0 then
    .err (.FrameError ("Invalid length for SETTINGS parameter: " ++ toString bytes.length))
  else SettingsParameter.deserializeLoop bytes

/-- The SETTINGS payload (`Settings` in `src/frame/settings.rs`). -/
structure Settings where
  flags : List SettingsFlag
  ack : Bool
  settings_parameters : List SettingsParameter
deriving DecidableEq, Repr

/-- `Settings::deserialize`: an ACK frame must have an empty payload;
then the parameters are read. -/
def Settings.deserialize (header : FrameHeader) (payload : List Nat) :
    RustResult Settings :=
  let flags := SettingsFlag.parse_flags header.frame_flags
  let ack := flags.contains SettingsFlag.Ack
  if ack ∧ payload.length ≠ 0 then
    .err (.FrameError "Invalid payload length: SETTINGS frame with ACK flag must be empty")
  else
    match SettingsParameter.deserialize payload with
    | .ok ps => .ok { flags := flags, ack := ack, settings_parameters := ps }
    | .err e => .err e
    | .panicked => .panicked

/-- The PUSH_PROMISE payload (`PushPromiseFrame` in
`src/frame/push_promise.rs`). -/
structure PushPromiseFrame where
  stream_id : Nat
  end_headers : Bool
  reserved : Bool
  promised_stream_id : Nat
  header_list : List HeaderField
deriving DecidableEq, Repr

/-- `PushPromiseFrame::deserialize_flags`: END_HEADERS 0x4, PADDED 0x8. -/
def PushPromiseFrame.deserialize_flags (byte : Nat) : List FrameFlag :=
  (if Nat.land byte 0x04 ≠ 0 then [FrameFlag.EndHeaders] else []) ++
  (if Nat.land byte 0x08 ≠ 0 then [FrameFlag.Padded] else [])

/-- `PushPromiseFrame::deserialize`: check the payload length, strip
padding as in the DATA frame, read the reserved bit and promised stream
id (`bytes[0..=3]`, aborting when fewer remain), then decode the header
block from `bytes[4..]`. -/
def PushPromiseFrame.deserialize (hdec : List Nat → RustResult String)
    (frame_header : FrameHeader) (bytes : List Nat) (header_table : HeaderTable) :
    RustResult PushPromiseFrame × HeaderTable :=
  if bytes.length ≠ frame_header.payload_length then
    (.err (.FrameError ("Expected " ++ toString frame_header.payload_length ++
      " bytes for PUSH_PROMISE frame, found " ++ toString bytes.length)), header_table)
  else
    let frame_flags := PushPromiseFrame.deserialize_flags frame_header.frame_flags
    let afterPad : RustResult (List Nat) :=
      if frame_flags.contains FrameFlag.Padded then
        match bytes with
        | [] => .panicked
        | b0 :: _ =>
            let pad_length := b0
            if pad_length = 0 then .err (.FrameError "Padding length invalid: found 0")
            else if frame_header.payload_length < pad_length then .panicked
            else
              let hi := frame_header.payload_length - pad_length
              if hi < 1 ∨ bytes.length < hi then .panicked
              else .ok ((bytes.take hi).drop 1)
      else .ok bytes
    match afterPad with
    | .err e => (.err e, header_table)
    | .panicked => (.panicked, header_table)
    | .ok bytes1 =>
        match bytes1 with
        | b0 :: b1 :: b2 :: b3 :: rest =>
            match HeaderList.decode hdec rest header_table with
            | (.ok hfs, t') =>
                (.ok { stream_id := frame_header.stream_identifier,
                       end_headers := frame_flags.contains FrameFlag.EndHeaders,
                       reserved := decide (b0 / 128 % 2 ≠ 0),
                       promised_stream_id := u32be (Nat.land b0 0x7F) b1 b2 b3,
                       header_list := hfs }, t')
            | (.err e, t') => (.err e, t')
            | (.panicked, t') => (.panicked, t')
        | _ => (.panicked, header_table)

/-- The PING payload (`PingFrame` in `src/frame/ping.rs`). -/
structure PingFrame where
  ack : Bool
  opaque_data : List Nat
deriving DecidableEq, Repr

/-- `PingFrame::deserialize_flags`: ACK is bit 0x1. -/
def PingFrame.deserialize_flags (byte : Nat) : List FrameFlag :=
  if Nat.land byte 0x01 ≠ 0 then [FrameFlag.Ack] else []

/-- `PingFrame::deserialize`: check the payload length; the opaque data
is `bytes[0..8]` (aborting when fewer than eight octets remain). -/
def PingFrame.deserialize (frame_header : FrameHeader) (bytes : List Nat) :
    RustResult PingFrame :=
  if bytes.length ≠ frame_header.payload_length then
    .err (.FrameError ("Expected " ++ toString frame_header.payload_length ++
      " bytes for PING frame, found " ++ toString bytes.length))
  else if bytes.length < 8 then .panicked
  else
    .ok { ack := (PingFrame.deserialize_flags frame_header.frame_flags).contains
            FrameFlag.Ack,
          opaque_data := bytes.take 8 }

/-- The GOAWAY payload (`GoAwayFrame` in `src/frame/go_away.rs`). -/
structure GoAwayFrame where
  reserved : Bool
  last_stream_id : Nat
  error_code : Nat
  debug_data : Option (List Nat)
deriving DecidableEq, Repr

/-- `GoAwayFrame::deserialize`: check the payload length; read
`bytes[0..=7]` (aborting when fewer than eight octets remain) and the
optional debug data `bytes[8..payload_length]`. -/
def GoAwayFrame.deserialize (frame_header : FrameHeader) (bytes : List Nat) :
    RustResult GoAwayFrame :=
  if bytes.length ≠ frame_header.payload_length then
    .err (.FrameError ("Expected " ++ toString frame_header.payload_length ++
      " bytes for GOAWAY frame, found " ++ toString bytes.length))
  else
    match bytes with
    | b0 :: b1 :: b2 :: b3 :: b4 :: b5 :: b6 :: b7 :: _ =>
        .ok { reserved := decide (b0 / 128 % 2 ≠ 0),
              last_stream_id := u32be (Nat.land b0 0x7F) b1 b2 b3,
              error_code := u32be b4 b5 b6 b7,
              debug_data := if 8 < frame_header.payload_length
                then some ((bytes.take frame_header.payload_length).drop 8)
                else none }
    | _ => .panicked

/-- The WINDOW_UPDATE payload (`WindowUpdateFrame` in
`src/frame/window_update.rs`). -/
structure WindowUpdateFrame where
  stream_id : Nat
  reserved : Bool
  window_size_increment : Nat
deriving DecidableEq, Repr

/-- `WindowUpdateFrame::deserialize`: check the payload length and read
`bytes[0..=3]` (aborting when fewer than four octets remain). -/
def WindowUpdateFrame.deserialize (frame_header : FrameHeader) (bytes : List Nat) :
    RustResult WindowUpdateFrame :=
  if bytes.length ≠ frame_header.payload_length then
    .err (.FrameError ("Expected " ++ toString frame_header.payload_length ++
      " bytes for WINDOW_UPDATE frame, found " ++ toString bytes.length))
  else
    match bytes with
    | b0 :: b1 :: b2 :: b3 :: _ =>
        .ok { stream_id := frame_header.stream_identifier,
              reserved := decide (b0 / 128 % 2 ≠ 0),
              window_size_increment := u32be (Nat.land b0 0x7F) b1 b2 b3 }
    | _ => .panicked

/-- The CONTINUATION payload (`ContinuationFrame` in
`src/frame/continuation.rs`). -/
structure ContinuationFrame where
  end_headers : Bool
  header_list : List HeaderField
deriving DecidableEq, Repr

/-- `ContinuationFrame::deserialize_flags`: END_HEADERS is bit 0x4. -/
def ContinuationFrame.deserialize_flags (byte : Nat) : List FrameFlag :=
  if Nat.land byte 0x04 ≠ 0 then [FrameFlag.EndHeaders] else []

/-- `ContinuationFrame::deserialize`: check the payload length, then the
whole payload is a header block decoded against the table. -/
def ContinuationFrame.deserialize (hdec : List Nat → RustResult String)
    (frame_header : FrameHeader) (bytes : List Nat) (header_table : HeaderTable) :
    RustResult ContinuationFrame × HeaderTable :=
  if bytes.length ≠ frame_header.payload_length then
    (.err (.FrameError ("Expected " ++ toString frame_header.payload_length ++
      " bytes for CONTINUATION frame, found " ++ toString bytes.length)), header_table)
  else
    let flags := ContinuationFrame.deserialize_flags frame_header.frame_flags
    match HeaderList.decode hdec (bytes.take frame_header.payload_length) header_table with
    | (.ok hfs, t') =>
        (.ok { end_headers := flags.contains FrameFlag.EndHeaders,
               header_list := hfs }, t')
    | (.err e, t') => (.err e, t')
    | (.panicked, t') => (.panicked, t')

/-- The frame union (`Frame` in `src/frame/mod.rs`). -/
inductive Frame where
  | Data (f : DataFrame)
  | Headers (f : Headers)
  | Priority (f : PriorityFrame)
  | RstStream (f : RstStreamFrame)
  | Settings (f : Settings)
  | PushPromise (f : PushPromiseFrame)
  | Ping (f : PingFrame)
  | GoAway (f : GoAwayFrame)
  | WindowUpdate (f : WindowUpdateFrame)
  | Continuation (f : ContinuationFrame)
deriving DecidableEq, Repr

/-- The type dispatch inside `Frame::deserialize` (the `match` on
`frame_header.frame_type()`): run the payload parser for the type on the
payload copy, threading the header table. -/
def Frame.dispatch (hdec : List Nat → RustResult String) (frame_header : FrameHeader)
    (bytes : List Nat) (header_table : HeaderTable) : RustResult Frame × HeaderTable :=
  match frame_header.frame_type with
  | 0x00 =>
      match DataFrame.deserialize frame_header bytes with
      | .ok f => (.ok (.Data f), header_table)
      | .err e => (.err e, header_table)
      | .panicked => (.panicked, header_table)
  | 0x01 =>
      match Headers.deserialize hdec frame_header bytes header_table with
      | (.ok f, t') => (.ok (.Headers f), t')
      | (.err e, t') => (.err e, t')
      | (.panicked, t') => (.panicked, t')
  | 0x02 =>
      match PriorityFrame.deserialize frame_header bytes with
      | .ok f => (.ok (.Priority f), header_table)
      | .err e => (.err e, header_table)
      | .panicked => (.panicked, header_table)
  | 0x03 =>
      match RstStreamFrame.deserialize frame_header bytes with
      | .ok f => (.ok (.RstStream f), header_table)
      | .err e => (.err e, header_table)
      | .panicked => (.panicked, header_table)
  | 0x04 =>
      match Settings.deserialize frame_header bytes with
      | .ok f => (.ok (.Settings f), header_table)
      | .err e => (.err e, header_table)
      | .panicked => (.panicked, header_table)
  | 0x05 =>
      match PushPromiseFrame.deserialize hdec frame_header bytes header_table with
      | (.ok f, t') => (.ok (.PushPromise f), t')
      | (.err e, t') => (.err e, t')
      | (.panicked, t') => (.panicked, t')
  | 0x06 =>
      match PingFrame.deserialize frame_header bytes with
      | .ok f => (.ok (.Ping f), header_table)
      | .err e => (.err e, header_table)
      | .panicked => (.panicked, header_table)
  | 0x07 =>
      match GoAwayFrame.deserialize frame_header bytes with
      | .ok f => (.ok (.GoAway f), header_table)
      | .err e => (.err e, header_table)
      | .panicked => (.panicked, header_table)
  | 0x08 =>
      match WindowUpdateFrame.deserialize frame_header bytes with
      | .ok f => (.ok (.WindowUpdate f), header_table)
      | .err e => (.err e, header_table)
      | .panicked => (.panicked, header_table)
  | 0x09 =>
      match ContinuationFrame.deserialize hdec frame_header bytes header_table with
      | (.ok f, t') => (.ok (.Continuation f), t')
      | (.err e, t') => (.err e, t')
      | (.panicked, t') => (.panicked, t')
  | n =>
      (.err (.FrameError ("Could not deserialize Frame: unknown frame type " ++ toString n)),
       header_table)

/-- `Frame::deserialize`: work on a copy of the stream, parse the frame
header, require `payload_length` further octets, truncate the copy to the
payload, dispatch on the type, and only on success replace the stream by
`stream[9 + payload_length..]`. -/
def Frame.deserialize (hdec : List Nat → RustResult String) (stream : List Nat)
    (header_table : HeaderTable) : RustResult Frame × List Nat × HeaderTable :=
  match FrameHeader.deserialize stream with
  | .err e => (.err e, stream, header_table)
  | .panicked => (.panicked, stream, header_table)
  | .ok (frame_header, bytes) =>
      if bytes.length < frame_header.payload_length then
        (.err (.NotEnoughBytes ("Frame payload needs at least " ++
          toString frame_header.payload_length ++ " bytes, found " ++
          toString bytes.length)), stream, header_table)
      else
        match Frame.dispatch hdec frame_header (bytes.take frame_header.payload_length)
            header_table with
        | (.ok frame, t') =>
            (.ok frame, stream.drop (9 + frame_header.payload_length), t')
        | (.err e, t') => (.err e, stream, t')
        | (.panicked, t') => (.panicked, stream, t')

/-- Stands in for the absent Huffman decoder at concrete instantiations.
Modelled from the spec: the crate's `huffman` module (`Tree::decode`,
used by `HpackString::decode` for `H = 1` strings) has no source file;
every concrete execution below stays on paths that never invoke it, so
any function is adequate. -/
def huffmanUnavailable : List Nat → RustResult String := fun _ => .panicked

/-! ## Dynamic-table lemmas -/

/-- After the eviction loop, a table whose stored size was in sync with
its entries is in sync again, fits under its bound, and keeps its bound. -/
theorem evict_inv (t : DynamicTable) (h : t.size = sizeSum t.entries) :
    (t.evictWhileOversized).size = sizeSum (t.evictWhileOversized).entries ∧
    (t.evictWhileOversized).size ≤ (t.evictWhileOversized).max_size ∧
    (t.evictWhileOversized).max_size = t.max_size := by
  induction t using DynamicTable.evictWhileOversized.induct with
  | case1 t hcond ih =>
      rw [DynamicTable.evictWhileOversized, if_pos hcond]
      exact ih rfl
  | case2 t hcond =>
      rw [DynamicTable.evictWhileOversized, if_neg hcond]
      exact ⟨h, by omega, rfl⟩

/-- The eviction loop does nothing when the table already fits. -/
theorem evict_noop (t : DynamicTable) (h : t.size ≤ t.max_size) :
    t.evictWhileOversized = t := by
  rw [DynamicTable.evictWhileOversized, if_neg (by omega)]

/-- An insertion whose resulting total fits evicts nothing: the new state
is literally the consed entry list with its recomputed size. -/
theorem add_entry_no_evict (t : DynamicTable) (e : HeaderField)
    (h : sizeSum (e :: t.entries) ≤ t.max_size) :
    t.add_entry e =
      { entries := e :: t.entries, size := sizeSum (e :: t.entries),
        max_size := t.max_size } := by
  unfold DynamicTable.add_entry
  rw [evict_noop _ (by simp [DynamicTable.update_size]; exact h)]
  simp [DynamicTable.update_size]

/-- When the freshly inserted head entry alone exceeds the bound, the
eviction loop drains the whole table. -/
theorem evict_all (l : List HeaderField) (e : HeaderField) (m : Nat)
    (h : m < e.size) :
    DynamicTable.evictWhileOversized
        { entries := e :: l, size := sizeSum (e :: l), max_size := m } =
      { entries := [], size := 0, max_size := m } := by
  induction l using List.reverseRecOn with
  | nil =>
      rw [DynamicTable.evictWhileOversized]
      have hgt : m < sizeSum [e] := by rw [sizeSum_cons, sizeSum_nil]; omega
      rw [if_pos hgt]
      simp only [DynamicTable.update_size, List.dropLast_single]
      rw [DynamicTable.evictWhileOversized, if_neg (by simp [sizeSum_nil])]
      rfl
  | append_singleton l' x ih =>
      rw [DynamicTable.evictWhileOversized]
      have hgt : m < sizeSum (e :: (l' ++ [x])) := by
        rw [sizeSum_cons]; omega
      rw [if_pos hgt]
      have hdrop : (e :: (l' ++ [x])).dropLast = e :: l' := by
        rw [← List.cons_append, List.dropLast_concat]
      simp only [DynamicTable.update_size, hdrop]
      exact ih

/-- Folding evictions-free insertions over a table appends the reversed
insertion list in front of the existing entries. -/
theorem fold_add_no_evict (l : List HeaderField) :
    ∀ t : DynamicTable, sizeSum (l.reverse ++ t.entries) ≤ t.max_size →
      (l.foldl DynamicTable.add_entry t).entries = l.reverse ++ t.entries ∧
      (l.foldl DynamicTable.add_entry t).max_size = t.max_size := by
  induction l with
  | nil => intro t _; simp
  | cons x xs ih =>
      intro t h
      have hx : sizeSum (x :: t.entries) ≤ t.max_size := by
        have hre : (x :: xs).reverse ++ t.entries = xs.reverse ++ (x :: t.entries) := by
          simp
        rw [hre, sizeSum_append] at h
        omega
      rw [List.foldl_cons, add_entry_no_evict t x hx]
      have h2 := ih { entries := x :: t.entries, size := sizeSum (x :: t.entries),
                      max_size := t.max_size }
        (by
          simp only []
          have hre : (x :: xs).reverse ++ t.entries = xs.reverse ++ (x :: t.entries) := by
            simp
          rw [hre] at h
          exact h)
      refine ⟨?_, h2.2⟩
      rw [h2.1]
      simp

/-- `HeaderTable::add_entry` only touches the dynamic part. -/
theorem fold_headertable_add (l : List HeaderField) :
    ∀ t : HeaderTable,
      l.foldl HeaderTable.add_entry t =
        { t with dynamic_table := l.foldl DynamicTable.add_entry t.dynamic_table } := by
  induction l with
  | nil => intro t; simp
  | cons x xs ih =>
      intro t
      rw [List.foldl_cons, List.foldl_cons, ih]
      rfl

/-! ## Frame-layer lemmas -/

/-- A successful frame-header parse reads its `payload_length` from the
first three octets of the buffer. -/
theorem frameHeader_payload_eq (s : List Nat) (fh : FrameHeader) (rest : List Nat)
    (h : FrameHeader.deserialize s = .ok (fh, rest)) :
    fh.payload_length = payloadLen24 s := by
  unfold FrameHeader.deserialize at h
  split at h
  · simp only [RustResult.ok.injEq, Prod.mk.injEq] at h
    rw [← h.1]
    rfl
  · simp at h

/-! ## Mutation sequences of the dynamic table -/

/-- One mutation of the dynamic table: an insertion (`add_entry`) or a
maximum-size update (`set_max_size`). -/
inductive TableOp where
  | insert (e : HeaderField)
  | resize (m : Nat)

/-- Apply one mutation. -/
def DynamicTable.applyOp (t : DynamicTable) : TableOp → DynamicTable
  | .insert e => t.add_entry e
  | .resize m => t.set_max_size m

/-- Every mutation restores the size bookkeeping: the stored size equals
the entry-size sum again and fits under the bound. -/
theorem applyOp_inv (t : DynamicTable) (op : TableOp)
    (h : t.size = sizeSum t.entries) :
    (t.applyOp op).size = sizeSum (t.applyOp op).entries ∧
    (t.applyOp op).size ≤ (t.applyOp op).max_size := by
  cases op with
  | insert e =>
      have hi := evict_inv (DynamicTable.update_size { t with entries := e :: t.entries }) rfl
      exact ⟨hi.1, hi.2.1⟩
  | resize m =>
      have hi := evict_inv { t with max_size := m } h
      exact ⟨hi.1, hi.2.1⟩

/-! ## The claims -/

/-- C1: the HPACK integer round trip `decode(N, encode(v, N)) = v` fails
on the code: `encode` compares `(integer as u8) < max_prefix_value`, so
the value 256 truncates to 0, is emitted as the single octet `0x00`, and
decodes back to 0 — contradicting `encode`'s own documentation that only
values strictly below `2^N - 1` are encoded within the prefix. -/
theorem hpack_integer_roundtrip_failure :
    HpackInteger.encode 256 5 = .ok [0x00] ∧
    HpackInteger.decode 5 [0x00] = .ok (0, []) ∧ (0 : Nat) ≠ 256 :=
  ⟨rfl, rfl, by decide⟩

/-- C2: starting from `DynamicTable::new`, after any sequence of
insertions and maximum-size updates the stored `size` equals the sum of
`entry.size()` over the entries and is at most `max_size`. -/
theorem dynamic_table_size_invariant (m : Nat) (ops : List TableOp) :
    (ops.foldl DynamicTable.applyOp (DynamicTable.new m)).size =
      sizeSum (ops.foldl DynamicTable.applyOp (DynamicTable.new m)).entries ∧
    (ops.foldl DynamicTable.applyOp (DynamicTable.new m)).size ≤
      (ops.foldl DynamicTable.applyOp (DynamicTable.new m)).max_size := by
  suffices haux : ∀ (l : List TableOp) (t : DynamicTable),
      t.size = sizeSum t.entries ∧ t.size ≤ t.max_size →
      (l.foldl DynamicTable.applyOp t).size =
        sizeSum (l.foldl DynamicTable.applyOp t).entries ∧
      (l.foldl DynamicTable.applyOp t).size ≤
        (l.foldl DynamicTable.applyOp t).max_size by
    exact haux ops (DynamicTable.new m) ⟨rfl, by simp [DynamicTable.new, sizeSum_nil]⟩
  intro l
  induction l with
  | nil => intro t h; exact h
  | cons op l ih =>
      intro t h
      rw [List.foldl_cons]
      exact ih _ (applyOp_inv t op h.1)

/-- C3: inserting a header field whose size exceeds `max_size` empties
the dynamic table; the new entry is not present afterwards, the stored
size drops to 0, and the bound is unchanged (`add_entry` has no error
channel, so the call returns normally). -/
theorem oversized_entry_insertion (t : DynamicTable) (e : HeaderField)
    (h : t.max_size < e.size) :
    (t.add_entry e).entries = [] ∧ e ∉ (t.add_entry e).entries ∧
    (t.add_entry e).size = 0 ∧ (t.add_entry e).max_size = t.max_size := by
  have hempty : t.add_entry e = { entries := [], size := 0, max_size := t.max_size } := by
    unfold DynamicTable.add_entry
    have hall := evict_all t.entries e t.max_size h
    simpa [DynamicTable.update_size] using hall
  rw [hempty]
  simp

/-- C3 witness: a 34-octet entry into a table bounded at 10 octets. -/
theorem oversized_entry_insertion_witness :
    ((DynamicTable.new 10).add_entry { name := "a", value := "b" }).entries = [] ∧
    ({ name := "a", value := "b" } : HeaderField) ∉
      ((DynamicTable.new 10).add_entry { name := "a", value := "b" }).entries ∧
    ((DynamicTable.new 10).add_entry { name := "a", value := "b" }).size = 0 ∧
    ((DynamicTable.new 10).add_entry { name := "a", value := "b" }).max_size =
      (DynamicTable.new 10).max_size :=
  oversized_entry_insertion (DynamicTable.new 10) { name := "a", value := "b" } (by decide)

/-- C4: the claim (and RFC 7541) say a declared string length of 0 is
legal and decodes to the empty string; `HpackString::decode` instead
rejects the well-formed encoding `0x00` with an `HpackError` — its guard
`length == 0` contradicts the spec it implements. -/
theorem hpack_string_decode_rejects_empty (hdec : List Nat → RustResult String) :
    HpackString.decode hdec [0x00] = .err (.HpackError "Invalid string length") := rfl

/-- C5: the claim says the integer decoder is total, failing with a typed
`Truncated` error when octets run out; `HpackInteger::decode` instead
indexes `bytes[0]` unconditionally, so an empty input and a continuation
sequence that runs out of octets abort (and `Http2Error` has no
`Truncated` variant at all). -/
theorem hpack_integer_decode_truncated_panics :
    HpackInteger.decode 5 [] = .panicked ∧
    HpackInteger.decode 5 [0x1F] = .panicked ∧
    HpackInteger.decode 5 [0x1F, 0xFF] = .panicked :=
  ⟨rfl, rfl, rfl⟩

/-- C6: whenever `Frame::deserialize` succeeds, the stream afterwards is
the original stream with its first `9 + payload_length` octets removed,
where `payload_length` is the 24-bit length field read from the frame
header. -/
theorem frame_deserialize_framing (hdec : List Nat → RustResult String)
    (stream : List Nat) (t : HeaderTable) (f : Frame) (stream' : List Nat)
    (t' : HeaderTable)
    (h : Frame.deserialize hdec stream t = (.ok f, stream', t')) :
    stream' = stream.drop (9 + payloadLen24 stream) := by
  unfold Frame.deserialize at h
  split at h
  · simp at h
  · simp at h
  · rename_i fh bytes heq
    split at h
    · simp at h
    · split at h
      · simp only [Prod.mk.injEq] at h
        rw [← h.2.1, frameHeader_payload_eq stream fh bytes heq]
      · simp at h
      · simp at h

/-- C6 witness: a 13-octet RST_STREAM frame consumes all 13 octets. -/
theorem frame_deserialize_framing_witness :
    ([] : List Nat) =
      ([0, 0, 4, 3, 0, 0, 0, 0, 1, 0, 0, 0, 0] : List Nat).drop
        (9 + payloadLen24 [0, 0, 4, 3, 0, 0, 0, 0, 1, 0, 0, 0, 0]) :=
  frame_deserialize_framing huffmanUnavailable [0, 0, 4, 3, 0, 0, 0, 0, 1, 0, 0, 0, 0]
    (HeaderTable.new 4096) (.RstStream { stream_id := 1, error_code := 0 }) []
    (HeaderTable.new 4096) rfl

/-- C7: the claim (and RFC 7540) say SETTINGS parameters with unknown
identifiers must be skipped; `SettingsParameter::deserialize` instead
rejects any identifier outside `0x1..0x6` with a `FrameError`, here on a
well-formed six-octet payload carrying identifier 0x7. -/
theorem settings_unknown_identifier_rejected :
    SettingsParameter.deserialize [0x00, 0x07, 0x00, 0x00, 0x00, 0x00] =
      .err (.FrameError ("Invalid SETTINGS parameter: " ++ toString 7)) := rfl

/-- C8 counterexample: on the S5 input the decoded DATA payload is not
the ten octets of `"Hello, Wor"` claimed by the spec. -/
theorem s5_padded_data_claim_counterexample :
    (Frame.deserialize huffmanUnavailable
        [0x00, 0x00, 0x0e, 0x00, 0x09, 0x00, 0x00, 0x00, 0x01, 0x02, 0x48, 0x65,
         0x6c, 0x6c, 0x6f, 0x2c, 0x20, 0x57, 0x6f, 0x72, 0x6c, 0x64, 0x21]
        (HeaderTable.new 4096)).1 ≠
      .ok (.Data { stream_id := 1, end_stream := true,
                   data := [0x48, 0x65, 0x6c, 0x6c, 0x6f, 0x2c, 0x20, 0x57, 0x6f, 0x72] }) := by
  decide

/-- C8 (amended): the S5 input decodes to a DATA frame with stream id 1,
END_STREAM set, and the eleven payload octets of `"Hello, Worl"`
(`bytes[1..14-2]` of the 14-octet payload), with the whole 23-octet
buffer consumed and the header table untouched. -/
theorem s5_padded_data_decode (hdec : List Nat → RustResult String) :
    Frame.deserialize hdec
        [0x00, 0x00, 0x0e, 0x00, 0x09, 0x00, 0x00, 0x00, 0x01, 0x02, 0x48, 0x65,
         0x6c, 0x6c, 0x6f, 0x2c, 0x20, 0x57, 0x6f, 0x72, 0x6c, 0x64, 0x21]
        (HeaderTable.new 4096) =
      (.ok (.Data { stream_id := 1, end_stream := true,
                    data := [0x48, 0x65, 0x6c, 0x6c, 0x6f, 0x2c, 0x20, 0x57, 0x6f,
                             0x72, 0x6c] }),
       [], HeaderTable.new 4096) := rfl

/-- C9: indices 1..61 of the unified header table address the static
table at `index - 1`; and after folding insertions of `es ++ [e]` into
the dynamic part with the total size fitting under the bound (so no
eviction fires), index 62 (= S + 1) yields `e`, the most recently
inserted entry. -/
theorem header_table_unified_index :
    (∀ (d : DynamicTable) (i : Nat), 1 ≤ i → i ≤ 61 →
      HeaderTable.get { static_table := staticTableFields, dynamic_table := d } i =
        .ok (staticTableFields.getD (i - 1) { name := "", value := "" })) ∧
    (∀ (d : DynamicTable) (es : List HeaderField) (e : HeaderField),
      sizeSum ((es ++ [e]).reverse ++ d.entries) ≤ d.max_size →
      ((es ++ [e]).foldl HeaderTable.add_entry
          { static_table := staticTableFields, dynamic_table := d }).get 62 = .ok e) := by
  constructor
  · intro d i h1 h61
    have hlen : staticTableFields.length = 61 := rfl
    have hlt : i - 1 < staticTableFields.length := by omega
    have hsome : staticTableFields.get? (i - 1) =
        some (staticTableFields.getD (i - 1) { name := "", value := "" }) := by
      rw [List.get?_eq_getElem?, List.getElem?_eq_getElem hlt, List.getD_eq_getElem?_getD,
        List.getElem?_eq_getElem hlt]
      rfl
    unfold HeaderTable.get
    rw [if_pos (by omega : i ≤ staticTableFields.length), if_neg (by omega : ¬i = 0)]
    unfold StaticTable.get
    rw [hsome]
  · intro d es e h
    rw [fold_headertable_add]
    have hfold := fold_add_no_evict (es ++ [e]) d h
    unfold HeaderTable.get
    rw [if_neg (by decide : ¬(62 : Nat) ≤ staticTableFields.length)]
    unfold DynamicTable.get
    rw [hfold.1]
    have hrev : (es ++ [e]).reverse ++ d.entries = e :: (es.reverse ++ d.entries) := by
      simp
    rw [hrev]
    rfl

/-- C9 witness: index 2 of a fresh table is `:method: GET`, and after one
insertion into a fresh table index 62 is that entry. -/
theorem header_table_unified_index_witness :
    HeaderTable.get
        { static_table := staticTableFields, dynamic_table := DynamicTable.new 4096 } 2 =
      .ok (staticTableFields.getD (2 - 1) { name := "", value := "" }) ∧
    (([] ++ [({ name := "a", value := "b" } : HeaderField)]).foldl HeaderTable.add_entry
        { static_table := staticTableFields, dynamic_table := DynamicTable.new 4096 }).get
        62 = .ok { name := "a", value := "b" } :=
  ⟨header_table_unified_index.1 (DynamicTable.new 4096) 2 (by decide) (by decide),
   header_table_unified_index.2 (DynamicTable.new 4096) [] { name := "a", value := "b" }
     (by decide)⟩

/-- C10: whenever `Frame::deserialize` returns a typed error, the input
stream is exactly unchanged — all parsing ran on a copy and the stream is
only replaced after a successful parse. -/
theorem frame_deserialize_error_atomic (hdec : List Nat → RustResult String)
    (stream : List Nat) (t : HeaderTable) (e : Http2Error) (stream' : List Nat)
    (t' : HeaderTable)
    (h : Frame.deserialize hdec stream t = (.err e, stream', t')) :
    stream' = stream := by
  unfold Frame.deserialize at h
  split at h
  · simp only [Prod.mk.injEq] at h
    exact h.2.1.symm
  · simp at h
  · split at h
    · simp only [Prod.mk.injEq] at h
      exact h.2.1.symm
    · split at h
      · simp at h
      · simp only [Prod.mk.injEq] at h
        exact h.2.1.symm
      · simp at h

/-- C10 witness: a frame of unknown type 99 fails and leaves the stream
as it was. -/
theorem frame_deserialize_error_atomic_witness :
    ([0, 0, 4, 99, 0, 0, 0, 0, 1, 0, 0, 0, 0] : List Nat) =
      [0, 0, 4, 99, 0, 0, 0, 0, 1, 0, 0, 0, 0] :=
  frame_deserialize_error_atomic huffmanUnavailable
    [0, 0, 4, 99, 0, 0, 0, 0, 1, 0, 0, 0, 0] (HeaderTable.new 4096)
    (.FrameError ("Could not deserialize Frame: unknown frame type " ++ toString 99))
    [0, 0, 4, 99, 0, 0, 0, 0, 1, 0, 0, 0, 0] (HeaderTable.new 4096) rfl
